import Mathlib

set_option linter.unreachableTactic false
set_option linter.unusedTactic false

/-!
Verification of the AsthmaGuard core: the Environmental Risk Assessment
Engine (the `risk` memo in the main page component) and the Subscription &
Notification Coordinator (`src/api.ts`).

Numeric readings (temperature, humidity, wind speed, AQI) are JavaScript
numbers compared against integer thresholds with strict/non-strict
comparisons only, so they are embedded as `ℚ`.  The subscription store is
a table keyed by the `email` column (primary key), embedded as a list of
rows with at most one row per key.
-/

namespace AsthmaGuard

/-- `RiskAssessment.level` — the string union `"Low" | "Moderate" | "High" | "Extreme"`. -/
inductive Level where
  | Low
  | Moderate
  | High
  | Extreme
deriving DecidableEq, Repr

/-- The `RiskAssessment` record returned by the `risk` memo:
`{ level, color, bgColor, advice, triggers }`. -/
structure RiskAssessment where
  level : Level
  color : String
  bgColor : String
  advice : List String
  triggers : List String
deriving DecidableEq, Repr

/-- The snapshot of readings the risk computation extracts from `data`:
`temp = data.current.main.temp`, `humidity = data.current.main.humidity`,
`windSpeed = data.current.wind.speed`, `aqi = data.aqi.list[0]?.main.aqi || 1`. -/
structure Snapshot where
  temp : ℚ
  humidity : ℚ
  windSpeed : ℚ
  aqi : ℚ
deriving DecidableEq, Repr

def advicePoorAir : String :=
  "Air quality is very poor. Avoid all outdoor activities and keep windows closed."
def adviceModerateAir : String :=
  "Air quality is moderate. Sensitive individuals should limit prolonged outdoor exertion."
def adviceColdAir : String :=
  "Cold air can trigger bronchospasm. Wear a scarf to warm the air you breathe."
def adviceHeat : String :=
  "High heat can increase ozone levels. Stay in air-conditioned spaces."
def adviceHumidity : String :=
  "High humidity can harbor mold and dust mites. Use a dehumidifier."
def adviceWind : String :=
  "Wind can stir up pollen and dust. Keep windows closed."
def adviceStable : String :=
  "Conditions are currently stable. Enjoy your day but keep your rescue inhaler nearby."

/-- The sequential accumulation of `score`, `triggers`, `advice` performed by
the body of the `risk` memo (the four `if`/`else if` rule blocks, in source
order).  Returns `(score, triggers, advice)`. -/
def riskAccum (s : Snapshot) : ℕ × List String × List String :=
  let a0 : ℕ × List String × List String := (0, [], [])
  let a1 :=
    if s.aqi ≥ 4 then
      (a0.1 + 3, a0.2.1 ++ ["Poor Air Quality"], a0.2.2 ++ [advicePoorAir])
    else if s.aqi ≥ 3 then
      (a0.1 + 2, a0.2.1 ++ ["Moderate Air Pollution"], a0.2.2 ++ [adviceModerateAir])
    else a0
  let a2 :=
    if s.temp < 10 then
      (a1.1 + 2, a1.2.1 ++ ["Cold Air"], a1.2.2 ++ [adviceColdAir])
    else if s.temp > 32 then
      (a1.1 + 1, a1.2.1 ++ ["Extreme Heat"], a1.2.2 ++ [adviceHeat])
    else a1
  let a3 :=
    if s.humidity > 75 then
      (a2.1 + 2, a2.2.1 ++ ["High Humidity"], a2.2.2 ++ [adviceHumidity])
    else a2
  let a4 :=
    if s.windSpeed > 10 then
      (a3.1 + 1, a3.2.1 ++ ["High Wind (Allergens)"], a3.2.2 ++ [adviceWind])
    else a3
  a4

/-- The internal cumulative `score` variable at the end of the rule blocks. -/
def riskScore (s : Snapshot) : ℕ := (riskAccum s).1

/-- The tail of the `risk` memo: map the final score to the returned
`RiskAssessment` (`score >= 5` Extreme, `score >= 3` High, `score >= 1`
Moderate, otherwise the stock Low result). -/
def assessSnapshot (s : Snapshot) : RiskAssessment :=
  let r := riskAccum s
  if r.1 ≥ 5 then
    ⟨.Extreme, "text-rose-600", "bg-rose-50", r.2.2, r.2.1⟩
  else if r.1 ≥ 3 then
    ⟨.High, "text-orange-500", "bg-orange-50", r.2.2, r.2.1⟩
  else if r.1 ≥ 1 then
    ⟨.Moderate, "text-amber-500", "bg-amber-50", r.2.2, r.2.1⟩
  else
    ⟨.Low, "text-emerald-500", "bg-emerald-50", [adviceStable], ["None detected"]⟩

/-- The weather payload fields the risk computation reads; `aqiList` is the
sequence of `main.aqi` values in `data.aqi.list`. -/
structure WeatherData where
  temp : ℚ
  humidity : ℚ
  windSpeed : ℚ
  aqiList : List ℚ
deriving DecidableEq, Repr

/-- JavaScript `x || d` on an optional numeric chain: `undefined` (absent)
and `0` are falsy and yield the default. -/
def jsNumOr (o : Option ℚ) (d : ℚ) : ℚ :=
  match o with
  | none => d
  | some a => if a = 0 then d else a

/-- The whole `risk` memo, including the `if (!data)` guard: on `none` it
returns the Low assessment with *empty* `advice` and `triggers`; otherwise
it extracts the snapshot (with `aqi = data.aqi.list[0]?.main.aqi || 1`) and
runs the rule blocks. -/
def riskOfData (data : Option WeatherData) : RiskAssessment :=
  match data with
  | none => ⟨.Low, "text-emerald-500", "bg-emerald-50", [], []⟩
  | some d =>
      assessSnapshot ⟨d.temp, d.humidity, d.windSpeed, jsNumOr d.aqiList.head? 1⟩

/-! ### Spec-side definitions (refinement targets)

These follow the wording of the spec's scoring table and level mapping,
written as independent per-row contributions summed/concatenated in table
order, to be compared with the source-derived `riskAccum`/`assessSnapshot`. -/

/-- Modelled from the spec's table: the score is the sum of independent row
contributions — AQI ≥ 4 ↦ 3 else AQI ≥ 3 ↦ 2; temp < 10 ↦ 2 else temp > 32
↦ 1; humidity > 75 ↦ 2; wind > 10 ↦ 1. -/
def specScore (s : Snapshot) : ℕ :=
  (if s.aqi ≥ 4 then 3 else if s.aqi ≥ 3 then 2 else 0)
    + (if s.temp < 10 then 2 else if s.temp > 32 then 1 else 0)
    + (if s.humidity > 75 then 2 else 0)
    + (if s.windSpeed > 10 then 1 else 0)

/-- Modelled from the spec's table: trigger labels of the matched rows, in
table order. -/
def specTriggers (s : Snapshot) : List String :=
  (if s.aqi ≥ 4 then ["Poor Air Quality"]
   else if s.aqi ≥ 3 then ["Moderate Air Pollution"] else [])
    ++ (if s.temp < 10 then ["Cold Air"]
        else if s.temp > 32 then ["Extreme Heat"] else [])
    ++ (if s.humidity > 75 then ["High Humidity"] else [])
    ++ (if s.windSpeed > 10 then ["High Wind (Allergens)"] else [])

/-- Modelled from the spec's table: the fixed per-row advice strings of the
matched rows, in table order. -/
def specAdvice (s : Snapshot) : List String :=
  (if s.aqi ≥ 4 then [advicePoorAir]
   else if s.aqi ≥ 3 then [adviceModerateAir] else [])
    ++ (if s.temp < 10 then [adviceColdAir]
        else if s.temp > 32 then [adviceHeat] else [])
    ++ (if s.humidity > 75 then [adviceHumidity] else [])
    ++ (if s.windSpeed > 10 then [adviceWind] else [])

/-- Modelled from the spec: `score≥5 → Extreme`, `score≥3 → High`,
`score≥1 → Moderate`, `score==0 → Low`. -/
def specLevel (score : ℕ) : Level :=
  if score ≥ 5 then .Extreme
  else if score ≥ 3 then .High
  else if score ≥ 1 then .Moderate
  else .Low

/-- Severity rank of a level, for monotonicity statements. -/
def levelRank : Level → ℕ
  | .Low => 0
  | .Moderate => 1
  | .High => 2
  | .Extreme => 3

/-- The accumulation agrees row-by-row with the spec table's independent
contributions. -/
theorem riskAccum_eq_spec (s : Snapshot) :
    riskAccum s = (specScore s, specTriggers s, specAdvice s) := by
  unfold riskAccum specScore specTriggers specAdvice
  split_ifs <;> rfl

/-- The `color` string returned for each level by the four return sites. -/
def colorOf : Level → String
  | .Low => "text-emerald-500"
  | .Moderate => "text-amber-500"
  | .High => "text-orange-500"
  | .Extreme => "text-rose-600"

/-- The `bgColor` string returned for each level by the four return sites. -/
def bgColorOf : Level → String
  | .Low => "bg-emerald-50"
  | .Moderate => "bg-amber-50"
  | .High => "bg-orange-50"
  | .Extreme => "bg-rose-50"

theorem riskScore_eq_specScore (s : Snapshot) : riskScore s = specScore s := by
  unfold riskScore
  rw [riskAccum_eq_spec]

/-- Structural form of the assessment: the stock Low record at score 0,
otherwise the spec-table lists with the level given by the score mapping. -/
theorem assessSnapshot_eq (s : Snapshot) :
    assessSnapshot s =
      if specScore s = 0 then
        ⟨.Low, "text-emerald-500", "bg-emerald-50", [adviceStable], ["None detected"]⟩
      else
        ⟨specLevel (specScore s), colorOf (specLevel (specScore s)),
          bgColorOf (specLevel (specScore s)), specAdvice s, specTriggers s⟩ := by
  have h := riskAccum_eq_spec s
  simp only [assessSnapshot, h, specLevel, colorOf, bgColorOf]
  split_ifs <;> first | rfl | (exfalso; omega)

theorem assess_triggers_pos (s : Snapshot) (h : riskScore s ≠ 0) :
    (assessSnapshot s).triggers = specTriggers s := by
  rw [riskScore_eq_specScore] at h
  rw [assessSnapshot_eq, if_neg h]

theorem assess_triggers_zero (s : Snapshot) (h : riskScore s = 0) :
    (assessSnapshot s).triggers = ["None detected"] := by
  rw [riskScore_eq_specScore] at h
  rw [assessSnapshot_eq, if_pos h]

theorem assess_advice_pos (s : Snapshot) (h : riskScore s ≠ 0) :
    (assessSnapshot s).advice = specAdvice s := by
  rw [riskScore_eq_specScore] at h
  rw [assessSnapshot_eq, if_neg h]

theorem assess_advice_zero (s : Snapshot) (h : riskScore s = 0) :
    (assessSnapshot s).advice = [adviceStable] := by
  rw [riskScore_eq_specScore] at h
  rw [assessSnapshot_eq, if_pos h]

theorem assess_level_eq (s : Snapshot) :
    (assessSnapshot s).level = specLevel (specScore s) := by
  rw [assessSnapshot_eq]
  by_cases h : specScore s = 0
  · rw [if_pos h, h]; rfl
  · rw [if_neg h]

theorem specLevel_mono {n m : ℕ} (h : n ≤ m) :
    levelRank (specLevel n) ≤ levelRank (specLevel m) := by
  unfold specLevel
  split_ifs <;> simp [levelRank] <;> omega

theorem specLevel_eq_low_iff (n : ℕ) : specLevel n = .Low ↔ n = 0 := by
  unfold specLevel
  split_ifs <;> simp_all <;> omega

theorem specTriggers_length_eq (s : Snapshot) :
    (specTriggers s).length = (specAdvice s).length := by
  unfold specTriggers specAdvice
  split_ifs <;> rfl

theorem none_detected_not_mem (s : Snapshot) :
    "None detected" ∉ specTriggers s := by
  unfold specTriggers
  split_ifs <;> decide

example : riskScore ⟨5, 80, 12, 4⟩ = 8 := by decide
example : (assessSnapshot ⟨5, 80, 12, 4⟩).level = .Extreme := by decide
example : (assessSnapshot ⟨5, 80, 12, 4⟩).triggers =
    ["Poor Air Quality", "Cold Air", "High Humidity", "High Wind (Allergens)"] := by decide
example : riskScore ⟨20, 50, 3, 1⟩ = 0 := by decide
example : (assessSnapshot ⟨20, 50, 3, 3⟩).level = .Moderate := by decide
example : riskOfData none = ⟨.Low, "text-emerald-500", "bg-emerald-50", [], []⟩ := by decide

/-- C1: for every snapshot the assessment computes the score additively by the
spec's table, appends triggers and advice in table order, and maps the
cumulative score to the level by `≥5 → Extreme`, `≥3 → High`, `≥1 → Moderate`,
`0 → Low` with the stock stable-conditions advice and trigger `"None detected"`. -/
theorem risk_assessment_matches_spec_table (s : Snapshot) :
    riskScore s = specScore s
    ∧ (assessSnapshot s).level = specLevel (specScore s)
    ∧ (assessSnapshot s).triggers =
        (if specScore s = 0 then ["None detected"] else specTriggers s)
    ∧ (assessSnapshot s).advice =
        (if specScore s = 0 then [adviceStable] else specAdvice s) := by
  refine ⟨riskScore_eq_specScore s, assess_level_eq s, ?_, ?_⟩
  · by_cases h : specScore s = 0
    · rw [if_pos h]
      exact assess_triggers_zero s (by rw [riskScore_eq_specScore]; exact h)
    · rw [if_neg h]
      exact assess_triggers_pos s (by rw [riskScore_eq_specScore]; exact h)
  · by_cases h : specScore s = 0
    · rw [if_pos h]
      exact assess_advice_zero s (by rw [riskScore_eq_specScore]; exact h)
    · rw [if_neg h]
      exact assess_advice_pos s (by rw [riskScore_eq_specScore]; exact h)

/-- C4: triggers and advice always have equal length (the seeded Low record
included); at score 0 both hold exactly the synthetic stable entry; and
`score = 0 ↔ level = Low ↔ triggers = ["None detected"]`. -/
theorem risk_lists_invariant (s : Snapshot) :
    (assessSnapshot s).triggers.length = (assessSnapshot s).advice.length
    ∧ (riskScore s = 0 → (assessSnapshot s).triggers = ["None detected"]
        ∧ (assessSnapshot s).advice = [adviceStable])
    ∧ (riskScore s = 0 ↔ (assessSnapshot s).level = .Low)
    ∧ ((assessSnapshot s).level = .Low ↔ (assessSnapshot s).triggers = ["None detected"]) := by
  refine ⟨?_, fun h0 => ⟨assess_triggers_zero s h0, assess_advice_zero s h0⟩, ?_, ?_, ?_⟩
  · by_cases h0 : riskScore s = 0
    · rw [assess_triggers_zero s h0, assess_advice_zero s h0]
      rfl
    · rw [assess_triggers_pos s h0, assess_advice_pos s h0]
      exact specTriggers_length_eq s
  · rw [assess_level_eq, specLevel_eq_low_iff, riskScore_eq_specScore]
  · intro hl
    rw [assess_level_eq, specLevel_eq_low_iff] at hl
    exact assess_triggers_zero s (by rw [riskScore_eq_specScore]; exact hl)
  · intro ht
    by_cases h0 : riskScore s = 0
    · rw [assess_level_eq, specLevel_eq_low_iff, ← riskScore_eq_specScore]
      exact h0
    · exfalso
      rw [assess_triggers_pos s h0] at ht
      refine none_detected_not_mem s ?_
      rw [ht]
      exact List.mem_singleton_self _

/-- C4 witness: at the stable snapshot `⟨20, 50, 3, 1⟩`, score is 0 and the
zero-score implication yields the seeded trigger and advice entries. -/
theorem risk_lists_invariant_witness :
    (assessSnapshot ⟨20, 50, 3, 1⟩).triggers = ["None detected"]
    ∧ (assessSnapshot ⟨20, 50, 3, 1⟩).advice = [adviceStable] :=
  (risk_lists_invariant ⟨20, 50, 3, 1⟩).2.1 (by decide)

/-- C2: boundary exactness — AQI exactly 3 adds exactly +2 with trigger
"Moderate Air Pollution" and not "Poor Air Quality"; AQI exactly 4 adds
exactly +3 with "Poor Air Quality" only; temperature exactly 10 and exactly
32 trigger neither the cold nor the heat rule (all comparisons strict). -/
theorem risk_boundary_exactness (t h w a : ℚ) :
    riskScore ⟨t, h, w, 3⟩ = riskScore ⟨t, h, w, 1⟩ + 2
    ∧ "Moderate Air Pollution" ∈ (assessSnapshot ⟨t, h, w, 3⟩).triggers
    ∧ "Poor Air Quality" ∉ (assessSnapshot ⟨t, h, w, 3⟩).triggers
    ∧ riskScore ⟨t, h, w, 4⟩ = riskScore ⟨t, h, w, 1⟩ + 3
    ∧ "Poor Air Quality" ∈ (assessSnapshot ⟨t, h, w, 4⟩).triggers
    ∧ "Moderate Air Pollution" ∉ (assessSnapshot ⟨t, h, w, 4⟩).triggers
    ∧ "Cold Air" ∉ (assessSnapshot ⟨10, h, w, a⟩).triggers
    ∧ "Extreme Heat" ∉ (assessSnapshot ⟨10, h, w, a⟩).triggers
    ∧ riskScore ⟨10, h, w, a⟩ = riskScore ⟨20, h, w, a⟩
    ∧ "Cold Air" ∉ (assessSnapshot ⟨32, h, w, a⟩).triggers
    ∧ "Extreme Heat" ∉ (assessSnapshot ⟨32, h, w, a⟩).triggers
    ∧ riskScore ⟨32, h, w, a⟩ = riskScore ⟨20, h, w, a⟩ := by
  have hs3 : riskScore ⟨t, h, w, 3⟩ ≠ 0 := by
    rw [riskScore_eq_specScore]
    simp only [specScore]
    norm_num
  have hs4 : riskScore ⟨t, h, w, 4⟩ ≠ 0 := by
    rw [riskScore_eq_specScore]
    simp only [specScore]
    norm_num
  refine ⟨?_, ?_, ?_, ?_, ?_, ?_, ?_, ?_, ?_, ?_, ?_, ?_⟩
  · simp only [riskScore_eq_specScore, specScore]
    norm_num
    omega
  · rw [assess_triggers_pos _ hs3]
    simp only [specTriggers]
    norm_num
  · rw [assess_triggers_pos _ hs3]
    simp only [specTriggers]
    split_ifs <;> first | (simp_all; done) | norm_num at *
  · simp only [riskScore_eq_specScore, specScore]
    norm_num
    omega
  · rw [assess_triggers_pos _ hs4]
    simp only [specTriggers]
    norm_num
  · rw [assess_triggers_pos _ hs4]
    simp only [specTriggers]
    split_ifs <;> first | (simp_all; done) | norm_num at *
  · by_cases h0 : riskScore ⟨10, h, w, a⟩ = 0
    · rw [assess_triggers_zero _ h0]
      decide
    · rw [assess_triggers_pos _ h0]
      simp only [specTriggers]
      split_ifs <;> first | (simp_all; done) | norm_num at *
  · by_cases h0 : riskScore ⟨10, h, w, a⟩ = 0
    · rw [assess_triggers_zero _ h0]
      decide
    · rw [assess_triggers_pos _ h0]
      simp only [specTriggers]
      split_ifs <;> first | (simp_all; done) | norm_num at *
  · simp only [riskScore_eq_specScore, specScore]
    norm_num
  · by_cases h0 : riskScore ⟨32, h, w, a⟩ = 0
    · rw [assess_triggers_zero _ h0]
      decide
    · rw [assess_triggers_pos _ h0]
      simp only [specTriggers]
      split_ifs <;> first | (simp_all; done) | norm_num at *
  · by_cases h0 : riskScore ⟨32, h, w, a⟩ = 0
    · rw [assess_triggers_zero _ h0]
      decide
    · rw [assess_triggers_pos _ h0]
      simp only [specTriggers]
      split_ifs <;> first | (simp_all; done) | norm_num at *
  · simp only [riskScore_eq_specScore, specScore]
    norm_num

theorem specScore_mono_aqi (t h w a a' : ℚ) (hle : a ≤ a') :
    specScore ⟨t, h, w, a⟩ ≤ specScore ⟨t, h, w, a'⟩ := by
  dsimp only [specScore]
  have h1 : (if (4:ℚ) ≤ a then (3:ℕ) else if (3:ℚ) ≤ a then 2 else 0)
      ≤ (if (4:ℚ) ≤ a' then 3 else if (3:ℚ) ≤ a' then 2 else 0) := by
    split_ifs <;> first | omega | (exfalso; linarith)
  exact Nat.add_le_add_right (Nat.add_le_add_right (Nat.add_le_add_right h1 _) _) _

theorem specScore_mono_humidity (t h h' w a : ℚ) (hle : h ≤ h') :
    specScore ⟨t, h, w, a⟩ ≤ specScore ⟨t, h', w, a⟩ := by
  dsimp only [specScore]
  have h1 : (if (75:ℚ) < h then (2:ℕ) else 0) ≤ (if (75:ℚ) < h' then 2 else 0) := by
    split_ifs <;> first | omega | (exfalso; linarith)
  exact Nat.add_le_add_right (Nat.add_le_add_left h1 _) _

theorem specScore_mono_wind (t h w w' a : ℚ) (hle : w ≤ w') :
    specScore ⟨t, h, w, a⟩ ≤ specScore ⟨t, h, w', a⟩ := by
  dsimp only [specScore]
  have h1 : (if (10:ℚ) < w then (1:ℕ) else 0) ≤ (if (10:ℚ) < w' then 1 else 0) := by
    split_ifs <;> first | omega | (exfalso; linarith)
  exact Nat.add_le_add_left h1 _

/-- C3 counterexample: the risk score is *not* monotone in temperature —
raising the temperature from 5 °C to 20 °C (other readings fixed) drops the
score from 2 to 0 and the level from Moderate to Low, because the cold-air
rule rewards low temperatures. -/
theorem risk_monotone_in_each_dim_false :
    ¬ (∀ s s' : Snapshot,
        s.humidity = s'.humidity → s.windSpeed = s'.windSpeed → s.aqi = s'.aqi →
        s.temp ≤ s'.temp →
        riskScore s ≤ riskScore s'
        ∧ levelRank (assessSnapshot s).level ≤ levelRank (assessSnapshot s').level) := by
  intro hmono
  exact absurd
    (hmono ⟨5, 50, 3, 1⟩ ⟨20, 50, 3, 1⟩ rfl rfl rfl (by norm_num))
    (by decide)

/-- C3 amended: the score and level are monotone non-decreasing in AQI,
humidity, and wind speed independently (holding the other fields fixed) —
in particular raising AQI from 2 to 4 never decreases the level — but not
in temperature, where the cold rule rewards low readings. -/
theorem risk_monotone_amended :
    (∀ t h w a a' : ℚ, a ≤ a' →
        riskScore ⟨t, h, w, a⟩ ≤ riskScore ⟨t, h, w, a'⟩
        ∧ levelRank (assessSnapshot ⟨t, h, w, a⟩).level
            ≤ levelRank (assessSnapshot ⟨t, h, w, a'⟩).level)
    ∧ (∀ t h h' w a : ℚ, h ≤ h' →
        riskScore ⟨t, h, w, a⟩ ≤ riskScore ⟨t, h', w, a⟩
        ∧ levelRank (assessSnapshot ⟨t, h, w, a⟩).level
            ≤ levelRank (assessSnapshot ⟨t, h', w, a⟩).level)
    ∧ (∀ t h w w' a : ℚ, w ≤ w' →
        riskScore ⟨t, h, w, a⟩ ≤ riskScore ⟨t, h, w', a⟩
        ∧ levelRank (assessSnapshot ⟨t, h, w, a⟩).level
            ≤ levelRank (assessSnapshot ⟨t, h, w', a⟩).level)
    ∧ (∀ t h w : ℚ,
        levelRank (assessSnapshot ⟨t, h, w, 2⟩).level
          ≤ levelRank (assessSnapshot ⟨t, h, w, 4⟩).level) := by
  refine ⟨fun t h w a a' hle => ?_, fun t h h' w a hle => ?_,
    fun t h w w' a hle => ?_, fun t h w => ?_⟩
  · have hsc := specScore_mono_aqi t h w a a' hle
    refine ⟨?_, ?_⟩
    · rw [riskScore_eq_specScore, riskScore_eq_specScore]
      exact hsc
    · rw [assess_level_eq, assess_level_eq]
      exact specLevel_mono hsc
  · have hsc := specScore_mono_humidity t h h' w a hle
    refine ⟨?_, ?_⟩
    · rw [riskScore_eq_specScore, riskScore_eq_specScore]
      exact hsc
    · rw [assess_level_eq, assess_level_eq]
      exact specLevel_mono hsc
  · have hsc := specScore_mono_wind t h w w' a hle
    refine ⟨?_, ?_⟩
    · rw [riskScore_eq_specScore, riskScore_eq_specScore]
      exact hsc
    · rw [assess_level_eq, assess_level_eq]
      exact specLevel_mono hsc
  · have hsc := specScore_mono_aqi t h w 2 4 (by norm_num)
    rw [assess_level_eq, assess_level_eq]
    exact specLevel_mono hsc

/-- C3 amended witness: raising AQI from 2 to 4 at `⟨20, 50, 3, ·⟩` keeps the
score and level non-decreasing. -/
theorem risk_monotone_amended_witness :
    riskScore ⟨20, 50, 3, 2⟩ ≤ riskScore ⟨20, 50, 3, 4⟩
    ∧ levelRank (assessSnapshot ⟨20, 50, 3, 2⟩).level
        ≤ levelRank (assessSnapshot ⟨20, 50, 3, 4⟩).level :=
  risk_monotone_amended.1 20 50 3 2 4 (by norm_num)

/-- C10: with no weather data (`data = null`) the risk value is level Low with
*empty* triggers and advice — not the seeded `"None detected"` / stable-advice
record a zero-score snapshot produces on the data path. -/
theorem risk_nodata_empty_lists :
    riskOfData none = ⟨.Low, "text-emerald-500", "bg-emerald-50", [], []⟩
    ∧ (riskOfData none).triggers = []
    ∧ (riskOfData none).advice = []
    ∧ (riskOfData none).triggers ≠ ["None detected"]
    ∧ riskScore ⟨20, 50, 3, 1⟩ = 0
    ∧ (assessSnapshot ⟨20, 50, 3, 1⟩).triggers = ["None detected"]
    ∧ riskOfData (some ⟨20, 50, 3, [1]⟩) ≠ riskOfData none := by decide

/-! ### Subscription & Notification Coordinator (`src/api.ts`)

The subscription store is the `subscriptions` table: `email` is the primary
key and `auto_notify` the flag the handlers read and write (the timestamp
columns are never read or written by any handler, so they are omitted).
Both backends (Postgres and SQLite) give the same logical key-value
semantics — `SELECT ... WHERE email = ?`, `INSERT ... ON CONFLICT (email)
DO UPDATE`, `DELETE ... WHERE email = ?` — with exact, case-sensitive
string comparison on the key. -/

/-- One row of the `subscriptions` table (the columns the handlers use). -/
structure SubRow where
  email : String
  auto_notify : Bool
deriving DecidableEq, Repr

/-- The `subscriptions` table. -/
abbrev Store := List SubRow

/-- `getSubscription`: `SELECT * FROM subscriptions WHERE email = ?` —
the row whose primary key equals `email`, if any. -/
def getSubscription (email : String) (db : Store) : Option SubRow :=
  db.find? (fun r => r.email == email)

/-- `upsertSubscription`: `INSERT ... VALUES (email, autoNotify) ON CONFLICT
(email) DO UPDATE SET auto_notify = autoNotify` — update the existing row's
flag if the key is present, otherwise insert a new row. -/
def upsertSubscription (email : String) (autoNotify : Bool) (db : Store) : Store :=
  if (db.find? (fun r => r.email == email)).isSome then
    db.map (fun r => if r.email == email then { r with auto_notify := autoNotify } else r)
  else
    db ++ [⟨email, autoNotify⟩]

/-- `deleteSubscription`: `DELETE FROM subscriptions WHERE email = ?`. -/
def deleteSubscription (email : String) (db : Store) : Store :=
  db.filter (fun r => !(r.email == email))

/-- The JSON body of `GET /subscription/:email`:
`{ subscribed: !!row, autoNotify: row ? !!row.auto_notify : false }`. -/
structure StatusRes where
  subscribed : Bool
  autoNotify : Bool
deriving DecidableEq, Repr

/-- The `GET /subscription/:email` handler (success path). -/
def getStatus (email : String) (db : Store) : StatusRes :=
  match getSubscription email db with
  | some row => ⟨true, row.auto_notify⟩
  | none => ⟨false, false⟩

/-- The `POST /unsubscribe` handler: delete the row and answer
`{ success: true, message: "Unsubscribed successfully" }` (there is no
validation and the pure store never throws). -/
def unsubscribe (email : String) (db : Store) : (Bool × String) × Store :=
  ((true, "Unsubscribed successfully"), deleteSubscription email db)

/-- A character allowed by each `[^\s@]+` chunk of the validation regex:
neither whitespace nor `@`. -/
def emailCharOk (c : Char) : Bool :=
  !c.isWhitespace && c != '@'

/-- The validation regex `/^[^\s@]+@[^\s@]+\.[^\s@]+$/` as a decision
procedure: the string must split at its first `@` into a nonempty local
part and a domain, both made of non-whitespace non-`@` characters, with the
domain containing a `.` strictly inside (so that both dot-neighbour chunks
are nonempty). -/
def emailRegexTest (s : String) : Bool :=
  match s.data.findIdx? (fun c => c == '@') with
  | none => false
  | some i =>
      let loc := s.data.take i
      let dom := s.data.drop (i + 1)
      !loc.isEmpty && loc.all emailCharOk
        && !dom.isEmpty && dom.all emailCharOk
        && (dom.drop 1).dropLast.contains '.'

example : emailRegexTest "user@example.com" = true := by decide
example : emailRegexTest "a@b.c" = true := by decide
example : emailRegexTest "not-an-email" = false := by decide
example : emailRegexTest "a@b" = false := by decide
example : emailRegexTest "a@.c" = false := by decide
example : emailRegexTest "@b.c" = false := by decide
example : emailRegexTest "a b@c.d" = false := by decide

/-- The handler's guard `!toEmail || !emailRegex.test(toEmail)`, negated:
`toEmail` is present, truthy (non-empty) and matches the regex. -/
def validToEmail : Option String → Bool
  | none => false
  | some e => e != "" && emailRegexTest e

/-- The JSON replies of `POST /notify`, by exit site. -/
structure NotifyRes where
  status : ℕ
  success : Bool
  simulated : Bool
  error : Option String
deriving DecidableEq, Repr

/-- `400 { error: "Please provide a valid email address." }` -/
def notifyInvalid : NotifyRes :=
  ⟨400, false, false, some "Please provide a valid email address."⟩

/-- `200 { success: true, message: ..., simulated: true }` -/
def notifySimulated : NotifyRes := ⟨200, true, true, none⟩

/-- `200 { success: true, data }` -/
def notifySent : NotifyRes := ⟨200, true, false, none⟩

/-- Outcome of the external `resend.emails.send` call. -/
inductive MailOutcome where
  | ok
  | err (msg : String)
  | thrown
deriving DecidableEq, Repr

/-- Structural substring test used for
`error.message.includes("onboarding")`. -/
def infixOfChars (sub : List Char) : List Char → Bool
  | [] => sub.isEmpty
  | c :: t => sub.isPrefixOf (c :: t) || infixOfChars sub t

def containsSub (hay sub : String) : Bool :=
  infixOfChars sub.data hay.data

/-- The `POST /notify` handler.  `resendConfigured` is whether
`RESEND_API_KEY` was set (so `resend` is non-null); `outcome` is what the
external mail dispatcher would answer if called.  Returns the JSON reply,
the store after the request, and the list of dispatch attempts made. -/
def notify (resendConfigured : Bool) (outcome : MailOutcome)
    (toEmail : Option String) (saveEmail autoNotify : Bool)
    (db : Store) : NotifyRes × Store × List String :=
  if !(validToEmail toEmail) then
    (notifyInvalid, db, [])
  else
    match toEmail with
    | none => (notifyInvalid, db, [])
    | some e =>
        let db1 := if saveEmail then upsertSubscription e autoNotify db else db
        if !resendConfigured then
          (notifySimulated, db1, [])
        else
          match outcome with
          | .ok => (notifySent, db1, [e])
          | .err msg =>
              if containsSub msg "onboarding" then
                (⟨403, false, false,
                  some "Resend Onboarding Limit: You can only send emails to your own verified address while in onboarding mode."⟩,
                  db1, [e])
              else
                (⟨500, false, false,
                  some (if msg == "" then "Failed to send email" else msg)⟩, db1, [e])
          | .thrown => (⟨500, false, false, some "Internal server error"⟩, db1, [e])

theorem find?_map_update (e : String) (b : Bool) :
    ∀ db : List SubRow, (db.find? (fun r => r.email == e)).isSome →
      (db.map (fun r => if r.email == e then { r with auto_notify := b } else r)).find?
          (fun r => r.email == e) = some ⟨e, b⟩ := by
  intro db
  induction db with
  | nil => intro h; simp at h
  | cons hd tl ih =>
      intro h
      by_cases hb : hd.email = e
      · simp [List.find?_cons, hb]
      · simp only [List.map_cons]
        rw [if_neg (by simpa using hb)]
        rw [List.find?_cons_of_neg _ (by simpa using hb)] at h ⊢
        exact ih h

theorem find?_append_singleton (e : String) (row : SubRow) :
    ∀ db : List SubRow, db.find? (fun r => r.email == e) = none →
      (db ++ [row]).find? (fun r => r.email == e)
        = [row].find? (fun r => r.email == e) := by
  intro db
  induction db with
  | nil => intro _; rfl
  | cons hd tl ih =>
      intro h
      by_cases hb : hd.email = e
      · rw [List.find?_cons_of_pos _ (by simpa using hb)] at h
        exact absurd h (by simp)
      · rw [List.find?_cons_of_neg _ (by simpa using hb)] at h
        rw [List.cons_append, List.find?_cons_of_neg _ (by simpa using hb)]
        exact ih h

theorem getSubscription_upsert_self (e : String) (b : Bool) (db : Store) :
    getSubscription e (upsertSubscription e b db) = some ⟨e, b⟩ := by
  unfold getSubscription upsertSubscription
  by_cases hf : (db.find? (fun r => r.email == e)).isSome
  · rw [if_pos hf]
    exact find?_map_update e b db hf
  · rw [if_neg hf]
    rw [find?_append_singleton e ⟨e, b⟩ db (Option.not_isSome_iff_eq_none.mp hf)]
    simp [List.find?_cons]

theorem find?_map_update_other (e e' : String) (b : Bool) (h : e ≠ e') :
    ∀ db : List SubRow,
      (db.map (fun r => if r.email == e then { r with auto_notify := b } else r)).find?
          (fun r => r.email == e')
        = db.find? (fun r => r.email == e') := by
  intro db
  induction db with
  | nil => rfl
  | cons hd tl ih =>
      simp only [List.map_cons]
      by_cases hb : hd.email = e
      · have hb' : ¬hd.email = e' := by rw [hb]; exact h
        rw [if_pos (by simpa using hb)]
        rw [List.find?_cons_of_neg _ (by simpa using hb'),
          List.find?_cons_of_neg _ (by simpa using hb')]
        exact ih
      · rw [if_neg (by simpa using hb)]
        by_cases hb' : hd.email = e'
        · rw [List.find?_cons_of_pos _ (by simpa using hb'),
            List.find?_cons_of_pos _ (by simpa using hb')]
        · rw [List.find?_cons_of_neg _ (by simpa using hb'),
            List.find?_cons_of_neg _ (by simpa using hb')]
          exact ih

theorem find?_append_singleton_other (e e' : String) (b : Bool) (h : e ≠ e') :
    ∀ db : List SubRow,
      (db ++ [(⟨e, b⟩ : SubRow)]).find? (fun r => r.email == e')
        = db.find? (fun r => r.email == e') := by
  intro db
  induction db with
  | nil => simp [List.find?_cons, h]
  | cons hd tl ih =>
      by_cases hb : hd.email = e'
      · rw [List.cons_append, List.find?_cons_of_pos _ (by simpa using hb),
          List.find?_cons_of_pos _ (by simpa using hb)]
      · rw [List.cons_append, List.find?_cons_of_neg _ (by simpa using hb),
          List.find?_cons_of_neg _ (by simpa using hb)]
        exact ih

theorem getSubscription_upsert_other (e e' : String) (b : Bool) (db : Store)
    (h : e ≠ e') :
    getSubscription e' (upsertSubscription e b db) = getSubscription e' db := by
  unfold getSubscription upsertSubscription
  by_cases hf : (db.find? (fun r => r.email == e)).isSome
  · rw [if_pos hf]
    exact find?_map_update_other e e' b h db
  · rw [if_neg hf]
    exact find?_append_singleton_other e e' b h db

theorem getSubscription_delete_self (e : String) (db : Store) :
    getSubscription e (deleteSubscription e db) = none := by
  unfold getSubscription deleteSubscription
  induction db with
  | nil => rfl
  | cons hd tl ih =>
      by_cases hb : hd.email = e
      · rw [List.filter_cons_of_neg (by simpa using hb)]
        exact ih
      · rw [List.filter_cons_of_pos (by simpa using hb),
          List.find?_cons_of_neg _ (by simpa using hb)]
        exact ih

theorem getSubscription_delete_other (e e' : String) (db : Store) (h : e ≠ e') :
    getSubscription e' (deleteSubscription e db) = getSubscription e' db := by
  unfold getSubscription deleteSubscription
  induction db with
  | nil => rfl
  | cons hd tl ih =>
      by_cases hb : hd.email = e
      · have hb' : ¬hd.email = e' := by rw [hb]; exact h
        rw [List.filter_cons_of_neg (by simpa using hb),
          List.find?_cons_of_neg _ (by simpa using hb')]
        exact ih
      · rw [List.filter_cons_of_pos (by simpa using hb)]
        by_cases hb' : hd.email = e'
        · rw [List.find?_cons_of_pos _ (by simpa using hb'),
            List.find?_cons_of_pos _ (by simpa using hb')]
        · rw [List.find?_cons_of_neg _ (by simpa using hb'),
            List.find?_cons_of_neg _ (by simpa using hb')]
          exact ih

theorem delete_not_found (e : String) (db : Store)
    (h : getSubscription e db = none) : deleteSubscription e db = db := by
  unfold getSubscription at h
  unfold deleteSubscription
  induction db with
  | nil => rfl
  | cons hd tl ih =>
      by_cases hb : hd.email = e
      · rw [List.find?_cons_of_pos _ (by simpa using hb)] at h
        exact absurd h (by simp)
      · rw [List.find?_cons_of_neg _ (by simpa using hb)] at h
        rw [List.filter_cons_of_pos (by simpa using hb), ih h]

/-- C5 counterexample: emails are *not* lower-cased before being used as the
subscription key — after subscribing `"A@b.c"`, a status lookup for
`"a@b.c"` (same address, different letter case) misses the record, while the
exact-case lookup hits it. -/
theorem email_normalized_counterexample :
    getStatus "a@b.c" (upsertSubscription "A@b.c" true []) = ⟨false, false⟩
    ∧ getStatus "A@b.c" (upsertSubscription "A@b.c" true []) = ⟨true, true⟩ := by
  decide

/-- C5 amended: the Coordinator's operations use the email string verbatim
(case-sensitively) as the record key: the exact string addresses the same
record, and any different string — including the same address in another
letter case — addresses an unrelated record, unaffected by the write. -/
theorem email_key_used_verbatim (e e' : String) (b : Bool) (db : Store)
    (h : e ≠ e') :
    getStatus e (upsertSubscription e b db) = ⟨true, b⟩
    ∧ getStatus e' (upsertSubscription e b db) = getStatus e' db
    ∧ getStatus e' (deleteSubscription e db) = getStatus e' db := by
  unfold getStatus
  rw [getSubscription_upsert_self e b db,
    getSubscription_upsert_other e e' b db h,
    getSubscription_delete_other e e' db h]
  exact ⟨rfl, rfl, rfl⟩

/-- C5 amended witness: writing `"A@b.c"` is visible under the exact key and
invisible under the lower-cased key. -/
theorem email_key_used_verbatim_witness :
    getStatus "A@b.c" (upsertSubscription "A@b.c" true []) = ⟨true, true⟩
    ∧ getStatus "a@b.c" (upsertSubscription "A@b.c" true []) = getStatus "a@b.c" []
    ∧ getStatus "a@b.c" (deleteSubscription "A@b.c" []) = getStatus "a@b.c" [] :=
  email_key_used_verbatim "A@b.c" "a@b.c" true [] (by decide)

/-- C6: a `/notify` request whose `toEmail` is absent, empty or fails the
email regex is answered with the 400 invalid-email error, with the
subscription store untouched and no dispatch attempt. -/
theorem notify_invalid_email_no_side_effects
    (cfg : Bool) (o : MailOutcome) (t : Option String) (save auto : Bool)
    (db : Store) (h : validToEmail t = false) :
    notify cfg o t save auto db = (notifyInvalid, db, []) := by
  unfold notify
  rw [h]
  cases t <;> rfl

/-- C6 witness: `"not-an-email"` fails validation and causes no writes and no
dispatch even with `saveEmail` set and the dispatcher configured. -/
theorem notify_invalid_email_witness :
    notify true .ok (some "not-an-email") true true [] = (notifyInvalid, [], []) :=
  notify_invalid_email_no_side_effects true .ok (some "not-an-email") true true []
    (by decide)

/-- C7: round-trip — upserting with `autoNotify = true` then reading status
gives `{subscribed := true, autoNotify := true}`; unsubscribing afterwards
and reading again gives `{subscribed := false, autoNotify := false}`. -/
theorem subscription_round_trip (e : String) (db : Store)
    (_h : emailRegexTest e = true) :
    getStatus e (upsertSubscription e true db) = ⟨true, true⟩
    ∧ getStatus e (deleteSubscription e (upsertSubscription e true db))
        = ⟨false, false⟩ := by
  unfold getStatus
  rw [getSubscription_upsert_self e true db,
    getSubscription_delete_self e (upsertSubscription e true db)]
  exact ⟨rfl, rfl⟩

/-- C7 witness: the round-trip at the valid email `"a@b.c"` on the empty
store. -/
theorem subscription_round_trip_witness :
    getStatus "a@b.c" (upsertSubscription "a@b.c" true []) = ⟨true, true⟩
    ∧ getStatus "a@b.c"
        (deleteSubscription "a@b.c" (upsertSubscription "a@b.c" true []))
        = ⟨false, false⟩ :=
  subscription_round_trip "a@b.c" [] (by decide)

/-- C8: unsubscribe is idempotent on absent records — with no record for the
email, the call succeeds with the stock success reply and leaves the store
unchanged, and so does a second consecutive call. -/
theorem unsubscribe_idempotent (e : String) (db : Store)
    (h : getSubscription e db = none) :
    unsubscribe e db = ((true, "Unsubscribed successfully"), db)
    ∧ unsubscribe e (unsubscribe e db).2 = ((true, "Unsubscribed successfully"), db) := by
  have hd := delete_not_found e db h
  unfold unsubscribe
  rw [hd]
  exact ⟨rfl, by rw [hd]⟩

/-- C8 witness: two consecutive unsubscribes of `"a@b.c"` on the empty store
both succeed and leave it empty. -/
theorem unsubscribe_idempotent_witness :
    unsubscribe "a@b.c" [] = ((true, "Unsubscribed successfully"), [])
    ∧ unsubscribe "a@b.c" (unsubscribe "a@b.c" []).2
        = ((true, "Unsubscribed successfully"), []) :=
  unsubscribe_idempotent "a@b.c" [] (by decide)

/-- C9: with the mail dispatcher unconfigured (`resend = null`), a valid
notify request is answered with the Simulated result — HTTP 200, success
flag true, simulated marker, no error — never an error, with no dispatch
attempt, and with the upsert requested by `saveEmail` already applied. -/
theorem notify_unconfigured_simulated
    (o : MailOutcome) (e : String) (save auto : Bool) (db : Store)
    (h : validToEmail (some e) = true) :
    notify false o (some e) save auto db
      = (notifySimulated, if save then upsertSubscription e auto db else db, [])
    ∧ notifySimulated.success = true
    ∧ notifySimulated.simulated = true
    ∧ notifySimulated.error = none
    ∧ notifySimulated.status = 200 := by
  unfold notify
  rw [h]
  exact ⟨rfl, rfl, rfl, rfl, rfl⟩

/-- C9 witness: a valid request with `saveEmail` set, on the empty store and
unconfigured dispatcher, yields the Simulated success and the saved
subscription. -/
theorem notify_unconfigured_simulated_witness :
    notify false .ok (some "a@b.c") true true []
      = (notifySimulated, upsertSubscription "a@b.c" true [], []) :=
  (notify_unconfigured_simulated .ok "a@b.c" true true [] (by decide)).1

end AsthmaGuard
